import Mathlib

/-!
Verification of the smart_research scraping-and-persistence core.

This file shallowly embeds the Python code of `backend/core/scholar_scraper.py`,
`backend/core/database.py` and the `/api/search` handler of `backend/app.py`:

* pure string manipulation (year parsing, digit filtering) becomes Lean string
  functions over `String.data`, with Python's `str.isdigit` modelled as the
  ASCII digit test (the inputs of interest are ASCII);
* the Selenium-driven pagination loop of `scrape_papers` becomes a fuel-indexed
  loop over an abstract stream of page views; the fuel only makes the partial
  loop total — `none` means the fuel ran out, i.e. the Python loop is still
  running after that many iterations;
* effects that matter to the claims (calls to `_detect_captcha`, the 30 s
  `time.sleep` backoff, HTTP requests, file writes) are recorded in explicit
  event traces;
* the SQLite tables become a map (`search_cache`, keyed by query hash) and a
  row list (`papers`, whose `INSERT OR REPLACE` keyed on the primary key is
  delete-conflicting-row-then-append);
* the MD5 digests used for paper ids and cache keys are kept abstract: every
  definition takes the digest function as an explicit argument, so the theorems
  hold for every choice (including real MD5).
-/

namespace SmartResearch

/-! ## String helpers mirroring the Python primitives used by the scraper -/

/-- Model of Python `any(char.isdigit() for char in s)` (ASCII digits). -/
def hasDigit (s : String) : Bool := s.data.any Char.isDigit

/-- Model of Python `''.join(filter(str.isdigit, s))` (ASCII digits). -/
def digitsOf (s : String) : String := String.mk (s.data.filter Char.isDigit)

/-- Model of Python `int(s)` on a nonempty string of decimal digits. -/
def natOfDigits (s : String) : Nat :=
  s.data.foldl (fun n c => n * 10 + (c.toNat - 48)) 0

/-- Model of Python `s.startswith(pre)`: the first `len(pre)` characters
equal `pre`. -/
def pyStartswith (s pre : String) : Bool :=
  s.data.take pre.data.length == pre.data

/-- Model of the Python substring test `pat in s`. -/
def strContainsSub (s pat : String) : Bool :=
  (List.range (s.data.length + 1)).any
    fun i => (s.data.drop i).take pat.data.length == pat.data

/-- Worker for `pySplit`: walks the character list, cutting at each leftmost
non-overlapping occurrence of the separator, exactly like Python `str.split`
with a nonempty separator.  The `Nat` argument is an upper bound on the number
of characters still to walk (it makes the recursion structural, and with the
list length as the bound the middle case is never reached). -/
def splitLoop (sep : List Char) : Nat → List Char → List Char → List (List Char)
  | _, [], cur => [cur.reverse]
  | 0, rest, cur => [cur.reverse ++ rest]
  | fuel + 1, c :: rest, cur =>
    if sep.isPrefixOf (c :: rest) then
      cur.reverse :: splitLoop sep fuel (List.drop (sep.length - 1) rest) []
    else
      splitLoop sep fuel rest (c :: cur)

/-- Model of Python `s.split(sep)` for a nonempty separator. -/
def pySplit (s sep : String) : List String :=
  (splitLoop sep.data s.data.length s.data []).map String.mk

/-- Model of Python `s.strip()`: drop leading and trailing whitespace. -/
def pyStrip (s : String) : String :=
  String.mk (((s.data.dropWhile Char.isWhitespace).reverse.dropWhile
    Char.isWhitespace).reverse)

/-- Model of Python `s.lower()` (ASCII letters). -/
def pyLower (s : String) : String := String.mk (s.data.map Char.toLower)

/-! ## Data model: raw result blocks and extracted papers

A `RawBlock` is the part of one `.gs_ri` result block that
`_extract_paper_data` inspects.  Each field is the outcome of one
`find_element` call: `none` means the element is absent (Selenium raises
`NoSuchElementException`), `some` carries the text / attribute the code reads.
-/

/-- One raw Google-Scholar result block, as seen by `_extract_paper_data`. -/
structure RawBlock where
  /-- the `.gs_rt a` element: (text, href attribute) -/
  titleElem : Option (String × String)
  /-- the `.gs_a` detail line text (authors, venue, year) -/
  authorsElem : Option String
  /-- the `.gs_rs` snippet text -/
  snippetElem : Option String
  /-- the text of an `a` element containing `Cited by`, when present -/
  citedByElem : Option String
  /-- the href of the `.gs_or_ggsm a` direct-PDF link, when present -/
  pdfElem : Option String
deriving DecidableEq, Repr

/-- The dictionary built by `_extract_paper_data` (the `scraped_at` wall-clock
timestamp is omitted: no claim mentions it). -/
structure Paper where
  title : String
  url : String
  authors : String
  year : Option Nat
  snippet : String
  citations : Nat
  pdfUrl : Option String
  /-- `hashlib.md5(title.encode()).hexdigest()` — digest of the title -/
  id : String
deriving DecidableEq, Repr

/-! ## Year parsing (`scholar_scraper.py` lines 110–117) -/

/-- The early-exit test of the Python loop:
`len(year_match) == 4 and year_match.startswith('20')`. -/
def is20 (s : String) : Bool := s.length == 4 && pyStartswith s "20"

/-- The Python `for part in authors_text.split(' - ')` loop.  `acc` is the
current value of the `year_match` variable: it is overwritten by the digits of
every digit-containing part, and the loop breaks early at the first part whose
digit string is a 4-character token starting with `"20"`. -/
def yearScan : List String → Option String → Option String
  | [], acc => acc
  | p :: ps, acc =>
    if hasDigit p then
      let ym := digitsOf p
      if is20 ym then some ym else yearScan ps (some ym)
    else yearScan ps acc

/-- The final value of the `year_match` variable for a given detail line. -/
def yearTokenOf (t : String) : Option String :=
  yearScan (pySplit t " - ") none

/-- `paper_data['year'] = int(year_match) if year_match else None`.
(`year_match`, when set, holds the digits of a part that contains at least one
digit, hence is never the empty string.) -/
def parseYear (t : String) : Option Nat :=
  match yearTokenOf t with
  | some ym => some (natOfDigits ym)
  | none => none

/-! ## `_extract_paper_data` (`scholar_scraper.py` lines 95–146)

The whole body runs under `try: ... except Exception: return None`, so any
uncaught error is an extraction failure.  Failures that can actually occur:
a missing title element, a missing detail-line element, a missing snippet
element (each raises `NoSuchElementException`, only caught by the outer
handler), and `int('')` (a `ValueError`) when a `Cited by` link exists but its
text contains no digit.  A missing `Cited by` link or PDF link is caught by
the dedicated inner handlers and degrades to `citations = 0` / `pdf_url =
None`. -/
def extract_paper_data (hash : String → String) (b : RawBlock) : Option Paper :=
  match b.titleElem with
  | none => none
  | some te =>
    let title := pyStrip te.1
    let url := te.2
    match b.authorsElem with
    | none => none
    | some authorsText =>
      let authors :=
        if strContainsSub authorsText " - " then
          (pySplit authorsText " - ").headD ""
        else authorsText
      let year := parseYear authorsText
      match b.snippetElem with
      | none => none
      | some sn =>
        let snippet := pyStrip sn
        let citations? : Option Nat :=
          match b.citedByElem with
          | none => some 0
          | some ct =>
            let ds := digitsOf ct
            if ds = "" then none else some (natOfDigits ds)
        match citations? with
        | none => none
        | some citations =>
          some { title := title, url := url, authors := authors, year := year,
                 snippet := snippet, citations := citations,
                 pdfUrl := b.pdfElem, id := hash title }

/-! ## The pagination loop of `scrape_papers` (`scholar_scraper.py` 148–247)

A `Page` is what the driver observes after landing on one results page:
whether `_detect_captcha` finds a challenge, the list of `.gs_ri` result
blocks, and the state of the `Next` pagination link (`none`: absent, Selenium
raises `NoSuchElementException`; `some d`: present with `d` recording whether
`'disabled' in class`).  `pages i` is the page reached after `i` clicks of
`Next` — an infinite supply of pages.

Observable effects are recorded as events: `poll loc res` is one call of
`_detect_captcha` (`loc = none` on the scholar home page before the search is
submitted, `loc = some i` inside the loop on results page `i`) and `sleep30`
is the `time.sleep(30)` long backoff. -/

/-- One observed results page. -/
structure Page where
  captcha : Bool
  blocks : List RawBlock
  next : Option Bool
deriving Repr

/-- The world a single `scrape_papers` call runs against. -/
structure World where
  /-- result of `_detect_captcha` on the scholar home page -/
  homeCaptcha : Bool
  /-- results page after `i` clicks of the `Next` link -/
  pages : Nat → Page

/-- Detection / backoff events of one run. -/
inductive Ev where
  | poll (loc : Option Nat) (res : Bool)
  | sleep30
deriving DecidableEq, Repr

/-- How a `scrape_papers` call ends: `ok papers` is a normal
`return papers`, `raised` means an exception propagated out of the call (the
`except` clause at lines 241–243 logs and re-raises, so the collected papers
are lost). -/
inductive ScrapeOutcome where
  | ok (papers : List Paper)
  | raised
deriving DecidableEq, Repr

/-- The `for result_elem in result_elements` loop (lines 214–220): stop as
soon as `len(papers) >= max_results`, otherwise extract the block and append
the paper when extraction succeeded — failed blocks are skipped, and nothing
is deduplicated. -/
def extractBlocks (hash : String → String) (maxResults : Nat) :
    List RawBlock → List Paper → List Paper
  | [], papers => papers
  | b :: bs, papers =>
    if maxResults ≤ papers.length then papers
    else
      match extract_paper_data hash b with
      | some p => extractBlocks hash maxResults bs (papers ++ [p])
      | none => extractBlocks hash maxResults bs papers

/-- The `while len(papers) < max_results` loop (lines 196–236), with fuel.
`none` means the fuel was exhausted with the loop still running; the Python
loop has no iteration bound of its own.  Each iteration:

1. `WebDriverWait(...).until(presence_of ".gs_ri")` — if the page has no
   result block the wait times out, `TimeoutException` reaches the outer
   handler and is re-raised (`ScrapeOutcome.raised`);
2. `_detect_captcha` — a challenge breaks out of the loop immediately and the
   collected papers are returned;
3. the blocks are extracted (`extractBlocks`);
4. the `Next` link: absent or `'disabled' in class` breaks out of the loop;
   otherwise it is clicked and the loop repeats on the following page. -/
def scrapeLoop (hash : String → String) (pages : Nat → Page) (maxResults : Nat) :
    Nat → Nat → List Paper → Option (ScrapeOutcome × List Ev)
  | 0, _, _ => none
  | fuel + 1, pageIdx, papers =>
    if maxResults ≤ papers.length then some (ScrapeOutcome.ok papers, [])
    else
      let pg := pages pageIdx
      if pg.blocks.isEmpty then some (ScrapeOutcome.raised, [])
      else
        let ev := Ev.poll (some pageIdx) pg.captcha
        if pg.captcha then some (ScrapeOutcome.ok papers, [ev])
        else
          let papers2 := extractBlocks hash maxResults pg.blocks papers
          match pg.next with
          | none => some (ScrapeOutcome.ok papers2, [ev])
          | some true => some (ScrapeOutcome.ok papers2, [ev])
          | some false =>
            match scrapeLoop hash pages maxResults fuel (pageIdx + 1) papers2 with
            | none => none
            | some (o, tr) => some (o, ev :: tr)

/-- `scrape_papers` (lines 148–247).  Before the loop the driver opens the
scholar home page, runs `_detect_captcha` once and — if a challenge is
present — sleeps 30 s and then simply proceeds (lines 172–175: there is no
second poll); the search is submitted and the loop starts on page 0 with no
papers collected.  The query text and year filter only determine which pages
the site serves, which is exactly what the `World.pages` stream models. -/
def scrape_papers (hash : String → String) (w : World) (maxResults fuel : Nat) :
    Option (ScrapeOutcome × List Ev) :=
  let preEv := if w.homeCaptcha then [Ev.poll none true, Ev.sleep30]
               else [Ev.poll none false]
  match scrapeLoop hash w.pages maxResults fuel 0 [] with
  | none => none
  | some (o, tr) => some (o, preEv ++ tr)

/-- Termination of a `scrape_papers` run: some finite amount of fuel is
enough for the loop to reach a `return` or a raised exception. -/
def scrapeTerminates (hash : String → String) (w : World) (maxResults : Nat) : Prop :=
  ∃ fuel, (scrape_papers hash w maxResults fuel).isSome

/-! ## The persistence layer (`database.py`)

Time is a `Nat` count of seconds; `created_at DEFAULT CURRENT_TIMESTAMP` is
the clock value at insertion, and the read-side guard
`datetime(created_at, '+N hours') > datetime('now')` is
`now < createdAt + N * 3600`. -/

/-- One row of the `search_cache` table. -/
structure SearchCacheRow where
  query : String
  maxResults : Nat
  results : List Paper
  createdAt : Nat
deriving Repr

/-- The `search_cache` table, keyed by its UNIQUE `query_hash` column. -/
def SearchCache := String → Option SearchCacheRow

/-- The empty `search_cache` table. -/
def emptyCache : SearchCache := fun _ => none

/-- `_generate_query_hash` (lines 104–107):
`md5(f"{query.lower().strip()}_{max_results}")`. -/
def generate_query_hash (hash : String → String) (query : String) (maxResults : Nat) :
    String :=
  hash (pyStrip (pyLower query) ++ "_" ++ toString maxResults)

/-- `get_cached_search` (lines 109–142): look the hash key up and return the
stored results unless the entry has logically expired (`cache_hours` defaults
to 24 at every call site). -/
def get_cached_search (hash : String → String) (db : SearchCache) (query : String)
    (maxResults now cacheHours : Nat) : Option (List Paper) :=
  match db (generate_query_hash hash query maxResults) with
  | some row =>
    if now < row.createdAt + cacheHours * 3600 then some row.results else none
  | none => none

/-- `cache_search_results` (lines 144–163), success path: `INSERT OR REPLACE`
keyed on the UNIQUE `query_hash` column; `created_at` takes its default, the
current clock. -/
def cache_search_results (hash : String → String) (db : SearchCache) (query : String)
    (maxResults : Nat) (results : List Paper) (now : Nat) : SearchCache :=
  fun h =>
    if h = generate_query_hash hash query maxResults then
      some { query := query, maxResults := maxResults, results := results,
             createdAt := now }
    else db h

/-- The `try/except` wrapper of `cache_search_results`: when the store fails
(`storeOk = false`) the exception is caught, logged and swallowed — the
function returns normally with the table unchanged and gives its caller no
failure signal of any kind. -/
def cache_search_results_attempt (hash : String → String) (storeOk : Bool)
    (db : SearchCache) (query : String) (maxResults : Nat) (results : List Paper)
    (now : Nat) : SearchCache :=
  if storeOk then cache_search_results hash db query maxResults results now else db

/-! ## The `papers` table and `save_paper` (`database.py` lines 165–191) -/

/-- One row of the `papers` table as written by `save_paper` (the scraper's
dictionaries carry no `abstract`, so `paper_data.get('abstract')` stores NULL;
the constant `metadata` JSON blob is omitted — no claim mentions it). -/
structure PaperRow where
  id : String
  title : String
  authors : String
  year : Option Nat
  snippet : String
  url : String
  pdfUrl : Option String
  citations : Nat
  abstract : Option String
deriving DecidableEq, Repr

/-- The row `save_paper` builds from a scraped paper. -/
def rowOfPaper (p : Paper) : PaperRow :=
  { id := p.id, title := p.title, authors := p.authors, year := p.year,
    snippet := p.snippet, url := p.url, pdfUrl := p.pdfUrl,
    citations := p.citations, abstract := none }

/-- The `papers` table: its rows in rowid order. -/
def PapersTable := List PaperRow

/-- `save_paper`: `INSERT OR REPLACE INTO papers` keyed on the `id` PRIMARY
KEY — SQLite deletes any conflicting row and appends the new one. -/
def save_paper (t : PapersTable) (p : Paper) : PapersTable :=
  (t.filter fun r => r.id != p.id) ++ [rowOfPaper p]

/-- Reading one paper row by primary key. -/
def getPaper (t : PapersTable) (i : String) : Option PaperRow :=
  t.find? fun r => r.id == i

/-! ## The `/api/search` handler (`app.py` lines 29–67) -/

/-- What the HTTP caller of `/api/search` observes. -/
inductive ApiResult where
  | ok (papers : List Paper) (fromCache : Bool)
  | badRequest
  | serverError
deriving DecidableEq, Repr

/-- `search_papers` in `app.py`: empty query is a 400; a truthy cached list
(Python `if cached_results:` — `None` and `[]` are both falsy) is returned
with `from_cache = true`; otherwise the scraper runs (an exception from it is
turned into a 500 by the handler's `except`), the results are written through
`cache_search_results` — whose internal `except` swallows a store failure —
and the papers are returned with `from_cache = false`. -/
def search_papers_api (hash : String → String) (db : SearchCache) (storeOk : Bool)
    (query : String) (maxResults : Nat) (scrape : ScrapeOutcome) (now : Nat) :
    ApiResult × SearchCache :=
  if query = "" then (ApiResult.badRequest, db)
  else
    let cached := (get_cached_search hash db query maxResults now 24).getD []
    if cached.isEmpty then
      match scrape with
      | ScrapeOutcome.raised => (ApiResult.serverError, db)
      | ScrapeOutcome.ok papers =>
        (ApiResult.ok papers false,
         cache_search_results_attempt hash storeOk db query maxResults papers now)
    else (ApiResult.ok cached true, db)

/-! ## `download_pdf_if_available` (`scholar_scraper.py` lines 292–338) -/

/-- What one `self.session.get(pdf_url, ...)` can produce: a 2xx response with
a declared content type, a non-2xx status (`raise_for_status` throws), or a
network error / timeout (the request itself throws). -/
inductive NetResult where
  | success (contentType : String)
  | httpError
  | netError
deriving DecidableEq, Repr

/-- The requests issued and files written by one fetch. -/
structure FetchTrace where
  requested : List String
  written : List String
deriving DecidableEq, Repr

/-- `self.papers_dir`. -/
def papers_dir : String := "../data/papers"

/-- `download_pdf_if_available`: a falsy URL (Python `if not pdf_url`, i.e.
`None` or the empty string) returns `None` before any network or file
activity; otherwise one GET is issued and every failure — network error,
non-2xx status (`raise_for_status`), or a content type whose lowercase form
does not contain `"pdf"` — yields `None` (network exceptions are caught by
the function's `except`); on success the body is written to
`papers_dir/<paper_id>.pdf`. -/
def download_pdf_if_available (net : String → NetResult) (pdfUrl : Option String)
    (paperId : String) : Option String × FetchTrace :=
  match pdfUrl with
  | none => (none, { requested := [], written := [] })
  | some u =>
    if u = "" then (none, { requested := [], written := [] })
    else
      match net u with
      | NetResult.netError => (none, { requested := [u], written := [] })
      | NetResult.httpError => (none, { requested := [u], written := [] })
      | NetResult.success ct =>
        if strContainsSub (pyLower ct) "pdf" then
          let fp := papers_dir ++ "/" ++ paperId ++ ".pdf"
          (some fp, { requested := [u], written := [fp] })
        else (none, { requested := [u], written := [] })

/-! ## Concrete inputs used by witnesses and counterexamples -/

/-- A concrete digest function for concrete runs (the development treats the
MD5 digest as an abstract function parameter; only its determinism matters,
so the identity serves for evaluation). -/
def hid : String → String := fun s => s

/-- A block that extracts successfully. -/
def goodBlock : RawBlock :=
  { titleElem := some ("Deep Learning", "http://x"),
    authorsElem := some "Y LeCun - Nature, 2015",
    snippetElem := some "s", citedByElem := some "Cited by 1000",
    pdfElem := none }

/-- Same title as `goodBlock`, different snippet. -/
def goodBlockB : RawBlock :=
  { titleElem := some ("Deep Learning", "http://x"),
    authorsElem := some "Y LeCun - Nature, 2015",
    snippetElem := some "s2", citedByElem := some "Cited by 1000",
    pdfElem := none }

/-- A block with no title element: its extraction fails. -/
def badBlock : RawBlock :=
  { titleElem := none, authorsElem := none, snippetElem := none,
    citedByElem := none, pdfElem := none }

/-- Title and detail line present, snippet element absent. -/
def noSnippetBlock : RawBlock :=
  { titleElem := some ("T", "u"), authorsElem := some "A Smith - 2005",
    snippetElem := none, citedByElem := none, pdfElem := none }

/-- `extract_paper_data hid goodBlock`. -/
def paperA : Paper :=
  { title := "Deep Learning", url := "http://x", authors := "Y LeCun",
    year := some 2015, snippet := "s", citations := 1000, pdfUrl := none,
    id := "Deep Learning" }

/-- `extract_paper_data hid goodBlockB` — same id as `paperA`. -/
def paperB : Paper :=
  { title := "Deep Learning", url := "http://x", authors := "Y LeCun",
    year := some 2015, snippet := "s2", citations := 1000, pdfUrl := none,
    id := "Deep Learning" }

/-- `paperA` re-scraped later with a higher citation count. -/
def paperA2 : Paper := { paperA with citations := 1200 }

/-- First results page holds two blocks with the same title, no next page. -/
def Wdup : World :=
  { homeCaptcha := false,
    pages := fun _ => { captcha := false, blocks := [goodBlock, goodBlockB], next := none } }

/-- Every page: one block whose extraction fails, enabled next link. -/
def Winf : World :=
  { homeCaptcha := false,
    pages := fun _ => { captcha := false, blocks := [badBlock], next := some false } }

/-- Page 0 yields one paper and an enabled next link; page 1 renders no
result container, so the wait for `.gs_ri` times out. -/
def Wt : World :=
  { homeCaptcha := false,
    pages := fun i =>
      if i = 0 then { captcha := false, blocks := [goodBlock], next := some false }
      else { captcha := false, blocks := [], next := none } }

/-- Challenge on the home page and on results page 0. -/
def Wc : World :=
  { homeCaptcha := true,
    pages := fun _ => { captcha := true, blocks := [goodBlock], next := some false } }

/-- Every page: one successfully extracting block, enabled next link. -/
def Wgood : World :=
  { homeCaptcha := false,
    pages := fun _ => { captcha := false, blocks := [goodBlock], next := some false } }

/-- A block with no `Cited by` link and no PDF link. -/
def plainBlock : RawBlock :=
  { titleElem := some ("T", "u"), authorsElem := some "A",
    snippetElem := some "s", citedByElem := none, pdfElem := none }

/-- `extract_paper_data hid plainBlock`. -/
def plainPaper : Paper :=
  { title := "T", url := "u", authors := "A", year := none, snippet := "s",
    citations := 0, pdfUrl := none, id := "T" }

/-! ## Claim C7 — cache put/get round trip and TTL expiry -/

/-- Claim C7: for every query `q`, `max_results` `n` and result list `r`,
`cache_search_results(q, n, r)` followed immediately by
`get_cached_search(q, n)` returns `r`; once the clock is past the TTL
(24 hours after entry creation, the default at every call site) the same
`get_cached_search(q, n)` returns `None`. -/
theorem C7_cache_ttl (hash : String → String) (db : SearchCache) (q : String)
    (n : Nat) (r : List Paper) (now now' : Nat)
    (hpast : now + 24 * 3600 < now') :
    get_cached_search hash (cache_search_results hash db q n r now) q n now 24 = some r ∧
    get_cached_search hash (cache_search_results hash db q n r now) q n now' 24 = none := by
  unfold get_cached_search cache_search_results
  constructor
  · simp only [if_pos]
    rw [if_pos (by omega)]
  · simp only [if_pos]
    rw [if_neg (by omega)]

/-- Witness for C7 at a concrete query, list and clock values. -/
theorem C7_cache_ttl_witness :
    get_cached_search hid (cache_search_results hid emptyCache "q" 5 [paperA] 0) "q" 5 0 24 =
      some [paperA] ∧
    get_cached_search hid (cache_search_results hid emptyCache "q" 5 [paperA] 0) "q" 5 90000 24 =
      none :=
  C7_cache_ttl hid emptyCache "q" 5 [paperA] 0 90000 (by norm_num)

/-! ## Claim C8 — `save_paper` is an upsert keyed on the paper id -/

/-- After `save_paper t p`, the rows keyed `p.id` are exactly the one row just
written. -/
theorem save_paper_rows_for_id (t : PapersTable) (p : Paper) :
    (save_paper t p).filter (fun r => r.id == p.id) = [rowOfPaper p] := by
  unfold save_paper
  rw [List.filter_append, List.filter_filter]
  have h1 : (t.filter fun a => (a.id == p.id) && (a.id != p.id)) = [] := by
    simp [bne]
  have h2 : ([rowOfPaper p].filter fun r => r.id == p.id) = [rowOfPaper p] := by
    simp [rowOfPaper]
  rw [h1, h2, List.nil_append]

/-- Reading the saved id back returns the row just written. -/
theorem getPaper_save_paper (t : PapersTable) (p : Paper) :
    getPaper (save_paper t p) p.id = some (rowOfPaper p) := by
  unfold getPaper save_paper
  rw [List.find?_append]
  have h1 : (t.filter fun r => r.id != p.id).find? (fun r => r.id == p.id) = none := by
    rw [List.find?_eq_none]
    intro x hx
    rcases List.mem_filter.1 hx with ⟨-, hne⟩
    simp only [bne_iff_ne, ne_eq] at hne
    simp [hne]
  rw [h1]
  simp [rowOfPaper]

/-- Claim C8: `save_paper` applied twice to the same id — identical content or
updated fields — leaves exactly one stored row for that id, and reading the id
yields the latest upsert. -/
theorem C8_save_paper_upsert (t : PapersTable) (p p' : Paper) (h : p'.id = p.id) :
    ((save_paper (save_paper t p) p').filter (fun r => r.id == p.id)).length = 1 ∧
    getPaper (save_paper (save_paper t p) p') p.id = some (rowOfPaper p') := by
  constructor
  · rw [← h, save_paper_rows_for_id]
    rfl
  · rw [← h, getPaper_save_paper]

/-- Witness for C8: a paper saved, then saved again with an updated citation
count. -/
theorem C8_save_paper_upsert_witness :
    ((save_paper (save_paper ([] : PapersTable) paperA) paperA2).filter
        (fun r => r.id == paperA.id)).length = 1 ∧
    getPaper (save_paper (save_paper ([] : PapersTable) paperA) paperA2) paperA.id =
      some (rowOfPaper paperA2) :=
  C8_save_paper_upsert [] paperA paperA2 rfl

/-! ## Claim C10 — `download_pdf_if_available` failure behaviour -/

/-- Claim C10: a null or empty `pdf_url` returns `None` with no network
request and no file write; for any non-empty URL, a network error, a non-2xx
status, or a content type not containing `pdf` also yields `None` (the
function's `except` keeps every such failure from escaping as an
exception). -/
theorem C10_download_guard (net : String → NetResult) (pid : String) :
    download_pdf_if_available net none pid = (none, { requested := [], written := [] }) ∧
    download_pdf_if_available net (some "") pid = (none, { requested := [], written := [] }) ∧
    ∀ url, url ≠ "" →
      (net url = NetResult.netError ∨ net url = NetResult.httpError ∨
        ∃ ct, net url = NetResult.success ct ∧ strContainsSub (pyLower ct) "pdf" = false) →
      (download_pdf_if_available net (some url) pid).1 = none := by
  refine ⟨rfl, rfl, ?_⟩
  intro url hurl hfail
  simp only [download_pdf_if_available]
  rw [if_neg hurl]
  rcases hfail with h | h | ⟨ct, h, hct⟩ <;> rw [h]
  simp [hct]

/-- Witness for C10: a network that always fails with a connection error. -/
theorem C10_download_guard_witness :
    download_pdf_if_available (fun _ => NetResult.netError) none "p1" =
      (none, { requested := [], written := [] }) ∧
    download_pdf_if_available (fun _ => NetResult.netError) (some "") "p1" =
      (none, { requested := [], written := [] }) ∧
    (download_pdf_if_available (fun _ => NetResult.netError) (some "http://u") "p1").1 = none :=
  ⟨(C10_download_guard (fun _ => NetResult.netError) "p1").1,
   (C10_download_guard (fun _ => NetResult.netError) "p1").2.1,
   (C10_download_guard (fun _ => NetResult.netError) "p1").2.2 "http://u" (by decide)
     (Or.inl rfl)⟩

/-! ## Claim C3 — what the year parser actually computes -/

/-- A part without digits contributes the empty digit string. -/
theorem hasDigit_false_digitsOf {p : String} (h : hasDigit p = false) : digitsOf p = "" := by
  unfold hasDigit at h
  unfold digitsOf
  rw [List.any_eq_false] at h
  have hfil : p.data.filter Char.isDigit = [] := List.filter_eq_nil_iff.2 h
  rw [hfil]

/-- A part whose digit string passes the `len == 4 and startswith('20')` test
contains a digit. -/
theorem is20_digitsOf_hasDigit {p : String} (h : is20 (digitsOf p) = true) :
    hasDigit p = true := by
  by_contra hc
  rw [Bool.not_eq_true] at hc
  rw [hasDigit_false_digitsOf hc] at h
  exact absurd h (by decide)

/-- The scan leaves `year_match` unset exactly when it started unset and no
part contains a digit. -/
theorem yearScan_eq_none_iff (ps : List String) :
    ∀ acc, yearScan ps acc = none ↔ acc = none ∧ ∀ p ∈ ps, hasDigit p = false := by
  induction ps with
  | nil => intro acc; simp [yearScan]
  | cons p ps ih =>
    intro acc
    simp only [yearScan]
    cases hd : hasDigit p with
    | true =>
      rw [if_pos rfl]
      cases h20 : is20 (digitsOf p) with
      | true =>
        rw [if_pos rfl]
        constructor
        · intro h; cases h
        · rintro ⟨-, hall⟩
          have hx := hall p (List.mem_cons_self p ps)
          rw [hd] at hx; cases hx
      | false =>
        rw [if_neg (by decide)]
        rw [ih]
        constructor
        · rintro ⟨h, -⟩; cases h
        · rintro ⟨-, hall⟩
          have hx := hall p (List.mem_cons_self p ps)
          rw [hd] at hx; cases hx
    | false =>
      rw [if_neg (by decide)]
      rw [ih]
      constructor
      · rintro ⟨hacc, hall⟩
        refine ⟨hacc, ?_⟩
        intro q hq
        rcases List.mem_cons.1 hq with h | h
        · rw [h]; exact hd
        · exact hall q h
      · rintro ⟨hacc, hall⟩
        exact ⟨hacc, fun q hq => hall q (List.mem_cons_of_mem p hq)⟩

/-- Whatever the scan produces is the initial accumulator or the digit string
of one of the parts. -/
theorem yearScan_eq_some (ps : List String) :
    ∀ acc s, yearScan ps acc = some s →
      acc = some s ∨ ∃ p ∈ ps, hasDigit p = true ∧ s = digitsOf p := by
  induction ps with
  | nil => intro acc s h; exact Or.inl h
  | cons p ps ih =>
    intro acc s h
    simp only [yearScan] at h
    by_cases hd : hasDigit p = true
    · rw [if_pos hd] at h
      by_cases h20 : is20 (digitsOf p) = true
      · rw [if_pos h20] at h
        right
        exact ⟨p, List.mem_cons_self p ps, hd, (Option.some.injEq _ _ ▸ h).symm⟩
      · rw [if_neg h20] at h
        rcases ih (some (digitsOf p)) s h with hacc | ⟨q, hq, hdq, hsq⟩
        · right
          exact ⟨p, List.mem_cons_self p ps, hd, (Option.some.injEq _ _ ▸ hacc.symm)⟩
        · right
          exact ⟨q, List.mem_cons_of_mem p hq, hdq, hsq⟩
    · rw [if_neg hd] at h
      rcases ih acc s h with hacc | ⟨q, hq, hdq, hsq⟩
      · exact Or.inl hacc
      · exact Or.inr ⟨q, List.mem_cons_of_mem p hq, hdq, hsq⟩

/-- If some part trips the early-exit test, the scan returns a string passing
that test. -/
theorem yearScan_is20 (ps : List String) :
    ∀ acc, (∃ p ∈ ps, is20 (digitsOf p) = true) →
      ∃ s, yearScan ps acc = some s ∧ is20 s = true := by
  induction ps with
  | nil => rintro acc ⟨p, hp, -⟩; cases hp
  | cons p ps ih =>
    rintro acc ⟨q, hq, h20q⟩
    simp only [yearScan]
    rcases List.mem_cons.1 hq with hqp | hqtail
    · subst hqp
      rw [if_pos (by rw [is20_digitsOf_hasDigit h20q])]
      rw [if_pos h20q]
      exact ⟨digitsOf q, rfl, h20q⟩
    · by_cases hd : hasDigit p = true
      · rw [if_pos hd]
        by_cases h20 : is20 (digitsOf p) = true
        · rw [if_pos h20]
          exact ⟨digitsOf p, rfl, h20⟩
        · rw [if_neg h20]
          exact ih (some (digitsOf p)) ⟨q, hqtail, h20q⟩
      · rw [if_neg hd]
        exact ih acc ⟨q, hqtail, h20q⟩

/-- Counterexample to claim C3: the detail line `"A Smith - Conf 3"` contains
no 4-digit token beginning with `19` or `20`, yet the parser extracts
`year = 3` (the digits of the last digit-containing segment) instead of the
`null` the claim requires, and `3` is not a 4-digit value beginning with `19`
or `20`. -/
theorem C3_year_counterexample :
    parseYear "A Smith - Conf 3" = some 3 ∧ ¬ (1900 ≤ 3 ∧ 3 ≤ 2099) := by
  exact ⟨by decide, by decide⟩

/-- Claim C3, amended: the parser scans the `" - "`-separated segments of the
detail line, keeping the concatenated digits of every digit-containing
segment (not 4-digit tokens) and stopping early only at the first segment
whose digit string has length 4 and starts with `"20"` (not `"19"`).  So the
year is `null` exactly when no segment contains a digit; a non-null year is
the integer value of the digits of some segment, with no 4-digit or 19/20
guarantee; and when some segment's digit string is a 4-digit `"20"` token,
the returned year is such a token's value. -/
theorem C3_year_amended (t : String) :
    (parseYear t = none ↔ ∀ p ∈ pySplit t " - ", hasDigit p = false) ∧
    (∀ y, parseYear t = some y →
      ∃ p ∈ pySplit t " - ", hasDigit p = true ∧ y = natOfDigits (digitsOf p)) ∧
    ((∃ p ∈ pySplit t " - ", is20 (digitsOf p) = true) →
      ∃ s, yearTokenOf t = some s ∧ is20 s = true ∧ parseYear t = some (natOfDigits s)) := by
  refine ⟨?_, ?_, ?_⟩
  · unfold parseYear yearTokenOf
    cases h : yearScan (pySplit t " - ") none with
    | some ym =>
      simp only []
      constructor
      · intro hx; cases hx
      · intro hall
        have hnone := (yearScan_eq_none_iff (pySplit t " - ") none).2 ⟨rfl, hall⟩
        rw [h] at hnone; cases hnone
    | none =>
      simp only []
      constructor
      · intro _
        exact ((yearScan_eq_none_iff (pySplit t " - ") none).1 h).2
      · intro _; trivial
  · intro y hy
    unfold parseYear yearTokenOf at hy
    cases h : yearScan (pySplit t " - ") none with
    | none => rw [h] at hy; cases hy
    | some s =>
      rw [h] at hy
      rcases yearScan_eq_some (pySplit t " - ") none s h with hacc | ⟨p, hp, hdp, hsp⟩
      · cases hacc
      · refine ⟨p, hp, hdp, ?_⟩
        have hys : y = natOfDigits s := by injection hy with hy2; exact hy2.symm
        rw [hys, hsp]
  · intro hex
    rcases yearScan_is20 (pySplit t " - ") none hex with ⟨s, hs, h20⟩
    refine ⟨s, hs, h20, ?_⟩
    unfold parseYear yearTokenOf
    rw [hs]

/-- Witness for the amended C3 on the detail lines `"A Smith - Conf 3"`
(digit-bearing segment, no 20-token) and `"A - 2005"` (a 20-token segment). -/
theorem C3_year_amended_witness :
    (∃ p ∈ pySplit "A Smith - Conf 3" " - ",
       hasDigit p = true ∧ 3 = natOfDigits (digitsOf p)) ∧
    (∃ s, yearTokenOf "A - 2005" = some s ∧ is20 s = true ∧
       parseYear "A - 2005" = some (natOfDigits s)) :=
  ⟨(C3_year_amended "A Smith - Conf 3").2.1 3 (by decide),
   (C3_year_amended "A - 2005").2.2 ⟨"2005", by decide, by decide⟩⟩

/-! ## Claim C4 — which blocks fail extraction, and what failure costs -/

/-- Once the quota is reached, the block loop appends nothing more. -/
theorem extractBlocks_stop (hash : String → String) (m : Nat) (bs : List RawBlock)
    (acc : List Paper) (h : m ≤ acc.length) : extractBlocks hash m bs acc = acc := by
  cases bs with
  | nil => rfl
  | cons b bs => simp only [extractBlocks, if_pos h]

/-- Counterexample to claim C4: a block whose title element and detail-line
element are both present, but whose snippet element is missing, fails
extraction — so extraction does not fail *only* when title or detail line is
missing. -/
theorem C4_extraction_counterexample :
    noSnippetBlock.titleElem.isSome = true ∧ noSnippetBlock.authorsElem.isSome = true ∧
    extract_paper_data hid noSnippetBlock = none :=
  ⟨rfl, rfl, rfl⟩

/-- Claim C4, amended: extraction fails exactly when the title element, the
detail-line element or the snippet element is missing, or when a `Cited by`
link is present whose text contains no digit (`int('')` raises); a missing
citation link still yields `citations = 0` and a missing PDF link yields
`pdfUrl = none`; and a failing block is skipped — the rest of the page is
extracted exactly as if the block were not there. -/
theorem C4_extraction_amended (hash : String → String) (b : RawBlock) :
    (extract_paper_data hash b = none ↔
      (b.titleElem = none ∨ b.authorsElem = none ∨ b.snippetElem = none ∨
        ∃ ct, b.citedByElem = some ct ∧ digitsOf ct = "")) ∧
    (∀ p, extract_paper_data hash b = some p →
      (b.citedByElem = none → p.citations = 0) ∧
      (b.pdfElem = none → p.pdfUrl = none)) ∧
    (∀ (m : Nat) (bs : List RawBlock) (acc : List Paper),
      extract_paper_data hash b = none →
      extractBlocks hash m (b :: bs) acc = extractBlocks hash m bs acc) := by
  obtain ⟨t?, a?, s?, c?, pd?⟩ := b
  refine ⟨?_, ?_, ?_⟩
  · cases t? with
    | none => simp [extract_paper_data]
    | some te =>
      cases a? with
      | none => simp [extract_paper_data]
      | some at' =>
        cases s? with
        | none => simp [extract_paper_data]
        | some sn =>
          cases c? with
          | none => simp [extract_paper_data]
          | some ct =>
            by_cases hds : digitsOf ct = ""
            · simp [extract_paper_data, hds]
            · simp [extract_paper_data, hds]
  · intro p hp
    cases t? with
    | none => cases hp
    | some te =>
      cases a? with
      | none => cases hp
      | some at' =>
        cases s? with
        | none => cases hp
        | some sn =>
          cases c? with
          | none =>
            have h := Option.some.inj hp.symm
            subst h
            exact ⟨fun _ => rfl, fun hpd => hpd⟩
          | some ct =>
            constructor
            · intro hc; cases hc
            · intro hpd
              by_cases hds : digitsOf ct = ""
              · rw [show extract_paper_data hash
                  { titleElem := some te, authorsElem := some at', snippetElem := some sn,
                    citedByElem := some ct, pdfElem := pd? } = none by
                    simp [extract_paper_data, hds]] at hp
                cases hp
              · rw [show extract_paper_data hash
                  { titleElem := some te, authorsElem := some at', snippetElem := some sn,
                    citedByElem := some ct, pdfElem := pd? } =
                    some { title := pyStrip te.1, url := te.2,
                           authors := if strContainsSub at' " - " then
                               (pySplit at' " - ").headD "" else at',
                           year := parseYear at', snippet := pyStrip sn,
                           citations := natOfDigits (digitsOf ct), pdfUrl := pd?,
                           id := hash (pyStrip te.1) } by
                    simp [extract_paper_data, hds]] at hp
                have h := Option.some.inj hp.symm
                subst h
                exact hpd
  · intro m bs acc hfail
    by_cases hm : m ≤ acc.length
    · rw [extractBlocks_stop hash m (_ :: bs) acc hm, extractBlocks_stop hash m bs acc hm]
    · simp only [extractBlocks, if_neg hm, hfail]

/-- Witness for the amended C4: a block without citation or PDF links yields
`citations = 0` and `pdfUrl = none`, and a block without a title is skipped
while the rest of the page proceeds. -/
theorem C4_extraction_amended_witness :
    plainPaper.citations = 0 ∧ plainPaper.pdfUrl = none ∧
    extractBlocks hid 5 [badBlock, goodBlock] [] = extractBlocks hid 5 [goodBlock] [] :=
  ⟨((C4_extraction_amended hid plainBlock).2.1 plainPaper (by decide)).1 rfl,
   ((C4_extraction_amended hid plainBlock).2.1 plainPaper (by decide)).2 rfl,
   (C4_extraction_amended hid badBlock).2.2 5 [goodBlock] [] rfl⟩

/-! ## Claim C2 — duplicates are not dropped by the scrape loop -/

/-- Unfolding one successful block in the block loop. -/
theorem extractBlocks_cons_some (hash : String → String) (m : Nat) (b : RawBlock)
    (bs : List RawBlock) (acc : List Paper) (p : Paper) (hm : ¬ m ≤ acc.length)
    (hb : extract_paper_data hash b = some p) :
    extractBlocks hash m (b :: bs) acc = extractBlocks hash m bs (acc ++ [p]) := by
  simp only [extractBlocks, if_neg hm, hb]

/-- Every extracted paper's id is the digest of its (stripped) title. -/
theorem extract_id_eq (hash : String → String) (b : RawBlock) (p : Paper)
    (hp : extract_paper_data hash b = some p) : p.id = hash p.title := by
  obtain ⟨t?, a?, s?, c?, pd?⟩ := b
  cases t? with
  | none => cases hp
  | some te =>
    cases a? with
    | none => cases hp
    | some at' =>
      cases s? with
      | none => cases hp
      | some sn =>
        cases c? with
        | none =>
          have h := Option.some.inj hp.symm
          subst h
          rfl
        | some ct =>
          by_cases hds : digitsOf ct = ""
          · rw [show extract_paper_data hash
              { titleElem := some te, authorsElem := some at', snippetElem := some sn,
                citedByElem := some ct, pdfElem := pd? } = none by
                simp [extract_paper_data, hds]] at hp
            cases hp
          · rw [show extract_paper_data hash
              { titleElem := some te, authorsElem := some at', snippetElem := some sn,
                citedByElem := some ct, pdfElem := pd? } =
                some { title := pyStrip te.1, url := te.2,
                       authors := if strContainsSub at' " - " then
                           (pySplit at' " - ").headD "" else at',
                       year := parseYear at', snippet := pyStrip sn,
                       citations := natOfDigits (digitsOf ct), pdfUrl := pd?,
                       id := hash (pyStrip te.1) } by
                simp [extract_paper_data, hds]] at hp
            have h := Option.some.inj hp.symm
            subst h
            rfl

/-- Counterexample to claim C2: one run over a page whose two blocks carry
the same title returns *two* papers with the same id (they even differ in
their snippet, so they are distinct records with one id) — later duplicates
are not dropped at insert time. -/
theorem C2_dedup_counterexample :
    scrape_papers hid Wdup 5 1 =
      some (ScrapeOutcome.ok [paperA, paperB],
        [Ev.poll none false, Ev.poll (some 0) false]) ∧
    paperA.id = paperB.id ∧ paperA ≠ paperB :=
  ⟨by decide, rfl, by decide⟩

/-- Claim C2, amended: blocks with identical titles extract to papers with
identical ids, but `scrape_papers` keeps every occurrence in the returned
list (in block order); collapsing to one record per id happens only at the
persistence layer, where `save_paper`'s insert-or-replace keeps the latest
occurrence. -/
theorem C2_dedup_amended (hash : String → String) (m : Nat) (b1 b2 : RawBlock)
    (p1 p2 : Paper) (t0 : PapersTable)
    (h1 : extract_paper_data hash b1 = some p1)
    (h2 : extract_paper_data hash b2 = some p2)
    (ht : p1.title = p2.title) (hm : 2 ≤ m) :
    extractBlocks hash m [b1, b2] [] = [p1, p2] ∧
    p1.id = p2.id ∧
    getPaper (save_paper (save_paper t0 p1) p2) p1.id = some (rowOfPaper p2) := by
  have hid12 : p1.id = p2.id := by
    rw [extract_id_eq hash b1 p1 h1, extract_id_eq hash b2 p2 h2, ht]
  refine ⟨?_, hid12, ?_⟩
  · rw [extractBlocks_cons_some hash m b1 [b2] [] p1
      (by simp only [List.length_nil]; omega) h1]
    rw [List.nil_append]
    rw [extractBlocks_cons_some hash m b2 [] [p1] p2
      (by simp only [List.length_cons, List.length_nil]; omega) h2]
    rfl
  · rw [hid12]
    exact getPaper_save_paper (save_paper t0 p1) p2

/-- Witness for the amended C2 on the two same-title blocks of `Wdup`. -/
theorem C2_dedup_amended_witness :
    extractBlocks hid 5 [goodBlock, goodBlockB] [] = [paperA, paperB] ∧
    paperA.id = paperB.id ∧
    getPaper (save_paper (save_paper ([] : PapersTable) paperA) paperB) paperA.id =
      some (rowOfPaper paperB) :=
  C2_dedup_amended hid 5 goodBlock goodBlockB paperA paperB []
    (by decide) (by decide) rfl (by decide)

/-! ## Claim C1 -- termination and the quota bound -/


/-- The block loop never removes papers. -/
theorem extractBlocks_length_mono (hash : String → String) (m : Nat) :
    ∀ (bs : List RawBlock) (acc : List Paper),
      acc.length ≤ (extractBlocks hash m bs acc).length := by
  intro bs
  induction bs with
  | nil => intro acc; exact Nat.le_refl _
  | cons b bs ih =>
    intro acc
    by_cases hm : m ≤ acc.length
    · rw [extractBlocks_stop hash m (b :: bs) acc hm]
    · cases hb : extract_paper_data hash b with
      | some p =>
        rw [extractBlocks_cons_some hash m b bs acc p hm hb]
        calc acc.length ≤ (acc ++ [p]).length := by simp
          _ ≤ _ := ih (acc ++ [p])
      | none =>
        simp only [extractBlocks, if_neg hm, hb]
        exact ih acc

/-- The block loop never collects beyond the quota. -/
theorem extractBlocks_length_le (hash : String → String) (m : Nat) :
    ∀ (bs : List RawBlock) (acc : List Paper),
      acc.length ≤ m → (extractBlocks hash m bs acc).length ≤ m := by
  intro bs
  induction bs with
  | nil => intro acc h; exact h
  | cons b bs ih =>
    intro acc h
    by_cases hm : m ≤ acc.length
    · rw [extractBlocks_stop hash m (b :: bs) acc hm]; exact h
    · cases hb : extract_paper_data hash b with
      | some p =>
        rw [extractBlocks_cons_some hash m b bs acc p hm hb]
        exact ih (acc ++ [p]) (by simp; omega)
      | none =>
        simp only [extractBlocks, if_neg hm, hb]
        exact ih acc h

/-- A page holding at least one successfully extracting block grows the
collection strictly, as long as the quota is not yet met. -/
theorem extractBlocks_grows (hash : String → String) (m : Nat) :
    ∀ (bs : List RawBlock) (acc : List Paper) (b : RawBlock),
      b ∈ bs → (extract_paper_data hash b).isSome = true → acc.length < m →
      acc.length + 1 ≤ (extractBlocks hash m bs acc).length := by
  intro bs
  induction bs with
  | nil => intro acc b hb; cases hb
  | cons b' bs ih =>
    intro acc b hb hsome hlt
    have hm : ¬ m ≤ acc.length := by omega
    cases hb' : extract_paper_data hash b' with
    | some p =>
      rw [extractBlocks_cons_some hash m b' bs acc p hm hb']
      calc acc.length + 1 = (acc ++ [p]).length := by simp
        _ ≤ _ := extractBlocks_length_mono hash m bs (acc ++ [p])
    | none =>
      simp only [extractBlocks, if_neg hm, hb']
      rcases List.mem_cons.1 hb with rfl | htail
      · rw [hb'] at hsome; cases hsome
      · exact ih acc b htail hsome hlt

/-- Any normal return of the pagination loop carries at most `m` papers. -/
theorem scrapeLoop_ok_length (hash : String → String) (pages : Nat → Page) (m : Nat) :
    ∀ (fuel pageIdx : Nat) (acc : List Paper), acc.length ≤ m →
      ∀ (ps : List Paper) (tr : List Ev),
        scrapeLoop hash pages m fuel pageIdx acc = some (ScrapeOutcome.ok ps, tr) →
        ps.length ≤ m := by
  intro fuel
  induction fuel with
  | zero => intro pageIdx acc _ ps tr h; cases h
  | succ fuel ih =>
    intro pageIdx acc hacc ps tr h
    simp only [scrapeLoop] at h
    by_cases hq : m ≤ acc.length
    · rw [if_pos hq] at h
      simp only [Option.some.injEq, Prod.mk.injEq, ScrapeOutcome.ok.injEq] at h
      rw [← h.1]
      exact hacc
    · rw [if_neg hq] at h
      cases hempty : (pages pageIdx).blocks.isEmpty with
      | true =>
        rw [hempty] at h
        simp only [if_true] at h
        simp only [Option.some.injEq, Prod.mk.injEq] at h
        cases h.1
      | false =>
        rw [hempty] at h
        simp only [Bool.false_eq_true, if_false] at h
        cases hc : (pages pageIdx).captcha with
        | true =>
          rw [hc] at h
          simp only [if_true] at h
          simp only [Option.some.injEq, Prod.mk.injEq, ScrapeOutcome.ok.injEq] at h
          rw [← h.1]
          exact hacc
        | false =>
          rw [hc] at h
          simp only [Bool.false_eq_true, if_false] at h
          have hlen := extractBlocks_length_le hash m (pages pageIdx).blocks acc hacc
          cases hn : (pages pageIdx).next with
          | none =>
            rw [hn] at h
            simp only [Option.some.injEq, Prod.mk.injEq, ScrapeOutcome.ok.injEq] at h
            rw [← h.1]
            exact hlen
          | some d =>
            rw [hn] at h
            cases d with
            | true =>
              simp only [Option.some.injEq, Prod.mk.injEq, ScrapeOutcome.ok.injEq] at h
              rw [← h.1]
              exact hlen
            | false =>
              cases hrec : scrapeLoop hash pages m fuel (pageIdx + 1)
                  (extractBlocks hash m (pages pageIdx).blocks acc) with
              | none => rw [hrec] at h; cases h
              | some res =>
                obtain ⟨o, tr'⟩ := res
                rw [hrec] at h
                simp only [Option.some.injEq, Prod.mk.injEq] at h
                have ho : o = ScrapeOutcome.ok ps := h.1
                rw [ho] at hrec
                exact ih (pageIdx + 1) _ hlen ps tr' hrec

/-- One-step unfolding of the pagination loop. -/
theorem scrapeLoop_succ (hash : String → String) (pages : Nat → Page)
    (m fuel pageIdx : Nat) (acc : List Paper) :
    scrapeLoop hash pages m (fuel + 1) pageIdx acc =
      if m ≤ acc.length then some (ScrapeOutcome.ok acc, [])
      else if (pages pageIdx).blocks.isEmpty then some (ScrapeOutcome.raised, [])
      else if (pages pageIdx).captcha then
        some (ScrapeOutcome.ok acc, [Ev.poll (some pageIdx) (pages pageIdx).captcha])
      else
        match (pages pageIdx).next with
        | none => some (ScrapeOutcome.ok (extractBlocks hash m (pages pageIdx).blocks acc),
            [Ev.poll (some pageIdx) (pages pageIdx).captcha])
        | some true => some (ScrapeOutcome.ok (extractBlocks hash m (pages pageIdx).blocks acc),
            [Ev.poll (some pageIdx) (pages pageIdx).captcha])
        | some false =>
          match scrapeLoop hash pages m fuel (pageIdx + 1)
              (extractBlocks hash m (pages pageIdx).blocks acc) with
          | none => none
          | some (o, tr) => some (o, Ev.poll (some pageIdx) (pages pageIdx).captcha :: tr) :=
  rfl

/-- If every page offers at least one successfully extracting block, the
pagination loop finishes within `maxResults + 1` iterations: each iteration
either stops or strictly grows the collection. -/
theorem scrapeLoop_total (hash : String → String) (pages : Nat → Page) (m : Nat)
    (hgood : ∀ i, ∃ b ∈ (pages i).blocks, (extract_paper_data hash b).isSome = true) :
    ∀ (fuel pageIdx : Nat) (acc : List Paper), m ≤ acc.length + fuel →
      (scrapeLoop hash pages m (fuel + 1) pageIdx acc).isSome = true := by
  intro fuel
  induction fuel with
  | zero =>
    intro pageIdx acc hm
    simp only [Nat.add_zero] at hm
    rw [scrapeLoop_succ, if_pos hm]
    rfl
  | succ fuel ih =>
    intro pageIdx acc hm
    rw [scrapeLoop_succ]
    by_cases hq : m ≤ acc.length
    · rw [if_pos hq]; rfl
    · rw [if_neg hq]
      obtain ⟨b, hb, hbsome⟩ := hgood pageIdx
      have hempty : (pages pageIdx).blocks.isEmpty = false := by
        cases hbl : (pages pageIdx).blocks with
        | nil => rw [hbl] at hb; cases hb
        | cons x xs => rfl
      rw [hempty]
      simp only [Bool.false_eq_true, if_false]
      cases hc : (pages pageIdx).captcha with
      | true => rfl
      | false =>
        simp only [Bool.false_eq_true, if_false]
        have hgrow := extractBlocks_grows hash m (pages pageIdx).blocks acc b hb hbsome
          (by omega)
        cases hn : (pages pageIdx).next with
        | none => rfl
        | some d =>
          cases d with
          | true => rfl
          | false =>
            have hrec := ih (pageIdx + 1)
              (extractBlocks hash m (pages pageIdx).blocks acc) (by omega)
            obtain ⟨res, heq⟩ := Option.isSome_iff_exists.1 hrec
            obtain ⟨o, tr⟩ := res
            rw [heq]
            rfl

/-- Against the stream `Winf` — every page carries one block whose extraction
fails and an enabled next link — the loop never finishes, whatever the fuel:
the collection stays empty, so the `while len(papers) < max_results` guard
never becomes false and no stopping condition ever fires. -/
theorem scrapeLoop_winf_none (hash : String → String) :
    ∀ (fuel pageIdx : Nat), scrapeLoop hash Winf.pages 1 fuel pageIdx [] = none := by
  intro fuel
  induction fuel with
  | zero => intro pageIdx; rfl
  | succ fuel ih =>
    intro pageIdx
    simp only [scrapeLoop]
    rw [if_neg (by decide)]
    have hext : extractBlocks hash 1 (Winf.pages pageIdx).blocks [] = [] := by
      show extractBlocks hash 1 [badBlock] [] = []
      simp only [extractBlocks]
      rw [if_neg (by decide)]
      rfl
    have hcap : (Winf.pages pageIdx).captcha = false := rfl
    have hnext : (Winf.pages pageIdx).next = some false := rfl
    have hemp : (Winf.pages pageIdx).blocks.isEmpty = false := rfl
    rw [hemp]
    simp only [Bool.false_eq_true, if_false]
    rw [hcap]
    simp only [Bool.false_eq_true, if_false]
    rw [hnext, hext, ih (pageIdx + 1)]

/-- Counterexample to claim C1: with an infinite supply of next pages each
holding one result block that fails extraction, `scrape_papers` with
`max_results = 1` never terminates — no amount of fuel completes the run. -/
theorem C1_termination_counterexample : ¬ scrapeTerminates hid Winf 1 := by
  rintro ⟨fuel, hs⟩
  unfold scrape_papers at hs
  rw [scrapeLoop_winf_none hid fuel 0] at hs
  cases hs

/-- Claim C1, amended: `scrape_papers` terminates for every query and every
`max_results` *provided* every page offers at least one block that extracts
successfully (fuel `max_results + 1` then suffices); without that proviso the
loop can run forever, since a page of failing blocks makes no progress.  In
every terminating run, a normally returned list has length at most
`max_results`. -/
theorem C1_termination_amended (hash : String → String) (w : World) (m : Nat)
    (hgood : ∀ i, ∃ b ∈ (w.pages i).blocks, (extract_paper_data hash b).isSome = true) :
    ∃ out tr, scrape_papers hash w m (m + 1) = some (out, tr) ∧
      ∀ ps, out = ScrapeOutcome.ok ps → ps.length ≤ m := by
  have htot := scrapeLoop_total hash w.pages m hgood m 0 []
    (by simp only [List.length_nil]; omega)
  obtain ⟨res, heq⟩ := Option.isSome_iff_exists.1 htot
  obtain ⟨o, tr⟩ := res
  refine ⟨o, (if w.homeCaptcha then [Ev.poll none true, Ev.sleep30]
    else [Ev.poll none false]) ++ tr, ?_, ?_⟩
  · unfold scrape_papers
    rw [heq]
  · intro ps hps
    rw [hps] at heq
    exact scrapeLoop_ok_length hash w.pages m (m + 1) 0 []
      (by simp only [List.length_nil]; omega) ps tr heq

/-- Witness for the amended C1: pages of one good block each, quota 2. -/
theorem C1_termination_amended_witness :
    ∃ out tr, scrape_papers hid Wgood 2 3 = some (out, tr) ∧
      ∀ ps, out = ScrapeOutcome.ok ps → ps.length ≤ 2 :=
  C1_termination_amended hid Wgood 2 (fun _ => ⟨goodBlock, List.mem_cons_self goodBlock [], by decide⟩)

/-! ## Claim C5 -- results-wait timeout raises and discards partial progress -/

/-- Counterexample to claim C5: against `Wt` (page 0 yields one paper, page 1
never renders its results container) the run does not retry the page and does
not return the paper collected from page 0 -- the `TimeoutException` is
re-raised (lines 241-243) and the partial progress is lost. -/
theorem C5_timeout_counterexample :
    scrape_papers hid Wt 10 10 =
      some (ScrapeOutcome.raised, [Ev.poll none false, Ev.poll (some 0) false]) := by
  decide

/-- Claim C5, amended: when the wait for the results container times out, the
exception is logged and re-raised with no retry, and the papers collected so
far are discarded, not returned.  Partial results are returned only by the
other stopping conditions; as a sample, a page with a present container, no
challenge and no next link returns everything collected through that page. -/
theorem C5_timeout_amended (hash : String → String) (pages : Nat → Page)
    (m fuel pageIdx : Nat) (acc : List Paper) (hq : acc.length < m) :
    ((pages pageIdx).blocks = [] →
      scrapeLoop hash pages m (fuel + 1) pageIdx acc = some (ScrapeOutcome.raised, [])) ∧
    ((pages pageIdx).blocks ≠ [] → (pages pageIdx).captcha = false →
      (pages pageIdx).next = none →
      scrapeLoop hash pages m (fuel + 1) pageIdx acc =
        some (ScrapeOutcome.ok (extractBlocks hash m (pages pageIdx).blocks acc),
          [Ev.poll (some pageIdx) false])) := by
  constructor
  · intro hempty
    rw [scrapeLoop_succ, if_neg (by omega), hempty]
    rfl
  · intro hne hc hn
    have hemptyf : (pages pageIdx).blocks.isEmpty = false := by
      cases hbl : (pages pageIdx).blocks with
      | nil => exact absurd hbl hne
      | cons x xs => rfl
    rw [scrapeLoop_succ, if_neg (by omega), hemptyf]
    simp only [Bool.false_eq_true, if_false]
    rw [hc]
    simp only [Bool.false_eq_true, if_false]
    rw [hn]

/-- Witness for the amended C5: the timeout step on page 1 of `Wt` with one
paper collected, and a normal last-page stop on `Wdup`. -/
theorem C5_timeout_amended_witness :
    scrapeLoop hid Wt.pages 10 4 1 [paperA] = some (ScrapeOutcome.raised, []) ∧
    scrapeLoop hid Wdup.pages 5 1 0 [] =
      some (ScrapeOutcome.ok (extractBlocks hid 5 (Wdup.pages 0).blocks []),
        [Ev.poll (some 0) false]) :=
  ⟨(C5_timeout_amended hid Wt.pages 10 3 1 [paperA] (by decide)).1 rfl,
   (C5_timeout_amended hid Wdup.pages 5 0 0 [] (by decide)).2 (by decide) rfl rfl⟩

/-! ## Claim C6 -- challenge handling: no backoff or re-poll during pagination -/

/-- Counterexample to claim C6: on `Wc` the detection check reports a
challenge on results page 0, and the trace shows the driver aborts at once --
exactly one `poll` on that page, no 30 s backoff after it, and no re-poll.
The only `sleep30` in the trace follows the *home-page* poll, after which
scraping simply proceeds without re-polling. -/
theorem C6_challenge_counterexample :
    scrape_papers hid Wc 5 3 =
      some (ScrapeOutcome.ok [], [Ev.poll none true, Ev.sleep30, Ev.poll (some 0) true]) := by
  decide

/-- Claim C6, amended: a challenge reported during pagination aborts the run
immediately -- the collected papers are returned, that page is polled exactly
once, and no backoff sleep happens inside the loop; the 30 s backoff exists
only in the pre-search home-page check, whose outcome never affects the
result of the run (it only prepends poll/sleep events to the trace). -/
theorem C6_challenge_amended (hash : String → String) (pages : Nat → Page)
    (m fuel pageIdx : Nat) (acc : List Paper) (hq : acc.length < m)
    (hne : (pages pageIdx).blocks ≠ []) (hc : (pages pageIdx).captcha = true) :
    scrapeLoop hash pages m (fuel + 1) pageIdx acc =
      some (ScrapeOutcome.ok acc, [Ev.poll (some pageIdx) true]) ∧
    ∀ (w : World) (m' fuel' : Nat),
      (scrape_papers hash w m' fuel').map Prod.fst =
        (scrapeLoop hash w.pages m' fuel' 0 []).map Prod.fst := by
  constructor
  · have hemptyf : (pages pageIdx).blocks.isEmpty = false := by
      cases hbl : (pages pageIdx).blocks with
      | nil => exact absurd hbl hne
      | cons x xs => rfl
    rw [scrapeLoop_succ, if_neg (by omega), hemptyf]
    simp only [Bool.false_eq_true, if_false]
    rw [hc]
    rfl
  · intro w m' fuel'
    unfold scrape_papers
    cases scrapeLoop hash w.pages m' fuel' 0 [] with
    | none => rfl
    | some res => obtain ⟨o, tr⟩ := res; rfl

/-- Witness for the amended C6 on the challenged world `Wc`. -/
theorem C6_challenge_amended_witness :
    scrapeLoop hid Wc.pages 5 1 0 [] =
      some (ScrapeOutcome.ok [], [Ev.poll (some 0) true]) ∧
    (scrape_papers hid Wc 5 3).map Prod.fst =
      (scrapeLoop hid Wc.pages 5 3 0 []).map Prod.fst :=
  ⟨(C6_challenge_amended hid Wc.pages 5 0 0 [] (by decide) (by decide) rfl).1,
   (C6_challenge_amended hid Wc.pages 5 0 0 [] (by decide) (by decide) rfl).2 Wc 5 3⟩

/-! ## Claim C9 -- cache-write failures are absorbed, not propagated -/

/-- Counterexample to claim C9: with the persistence layer failing
(`storeOk = false`), `/api/search` answers exactly as it does when the write
succeeds -- the store failure is logged inside `cache_search_results` and
swallowed, so nothing is propagated to the caller. -/
theorem C9_store_counterexample :
    (search_papers_api hid emptyCache false "q" 5 (ScrapeOutcome.ok [paperA]) 0).1 =
      ApiResult.ok [paperA] false ∧
    (search_papers_api hid emptyCache false "q" 5 (ScrapeOutcome.ok [paperA]) 0).1 =
      (search_papers_api hid emptyCache true "q" 5 (ScrapeOutcome.ok [paperA]) 0).1 :=
  ⟨rfl, rfl⟩

/-- Claim C9, amended: on a cache miss with a successful scrape, a failure of
the persistence layer while writing the cache does not prevent the scraped
papers from being returned (the handler answers `ok papers, from_cache =
false` with the store unchanged), but the failure is *not* propagated: the
caller sees a response identical to the successful-write case. -/
theorem C9_store_amended (hash : String → String) (db : SearchCache) (q : String)
    (n : Nat) (papers : List Paper) (now : Nat) (hq : ¬ q = "")
    (hmiss : get_cached_search hash db q n now 24 = none) :
    search_papers_api hash db false q n (ScrapeOutcome.ok papers) now =
      (ApiResult.ok papers false, db) ∧
    (search_papers_api hash db false q n (ScrapeOutcome.ok papers) now).1 =
      (search_papers_api hash db true q n (ScrapeOutcome.ok papers) now).1 := by
  constructor
  · unfold search_papers_api
    rw [if_neg hq, hmiss]
    simp only [Option.getD_none, List.isEmpty_nil, if_true]
    unfold cache_search_results_attempt
    rw [if_neg (by decide)]
  · unfold search_papers_api
    rw [hmiss, if_neg hq, if_neg hq]
    rfl

/-- Witness for the amended C9: a failing store on a fresh cache. -/
theorem C9_store_amended_witness :
    search_papers_api hid emptyCache false "q" 5 (ScrapeOutcome.ok [paperA]) 0 =
      (ApiResult.ok [paperA] false, emptyCache) ∧
    (search_papers_api hid emptyCache false "q" 5 (ScrapeOutcome.ok [paperA]) 0).1 =
      (search_papers_api hid emptyCache true "q" 5 (ScrapeOutcome.ok [paperA]) 0).1 :=
  C9_store_amended hid emptyCache "q" 5 [paperA] 0 (by decide) rfl
